import Mathlib

/-!
Verification of the multi-model ensemble analysis engine of this repository.

The embedding covers:
* `src/utils/ensemble.py` — `combine_analyses`, `get_agreement_level`,
  `create_consensus_description`, `calculate_priority_score`,
  `should_flag_for_review`;
* `src/scripts/image/apply_ensemble_analysis.py` — `EnsembleAnalyzer.concern_scores`,
  `EnsembleAnalyzer.combine_concern_levels`, `EnsembleAnalyzer.combine_indicators`.

Python dictionaries holding a model assessment are modelled by a structure of
optional fields (`none` = key absent); `dict.get(k, d)` becomes `Option.getD`,
and float arithmetic is modelled exactly over `ℚ`.
-/

namespace DPRK

/-- A model-analysis record as passed to `combine_analyses`: one structure with
every key either model's dictionary may carry (`none` models an absent key). -/
structure Assessment where
  concern_level : Option String := none
  standard_concern_level : Option String := none
  concern_indicators : Option (List String) := none
  restriction_indicators : Option (List String) := none
  exploitation_indicators : Option (List String) := none
  control_indicators : Option (List String) := none
  welfare_concerns : Option (List String) := none
  scene_description : Option String := none
  personnel_count : Option Nat := none
  supervision_present : Option Bool := none
deriving Repr, DecidableEq

/-- The `concern_map` dictionary of `combine_analyses` together with the `.get`
default of 1: standard levels low/medium/high/critical and the gemma-specific
levels minimal/moderate/severe/extreme; anything else scores 1. -/
def concern_map (label : String) : Nat :=
  if label = "low" then 1
  else if label = "medium" then 2
  else if label = "high" then 3
  else if label = "critical" then 4
  else if label = "minimal" then 1
  else if label = "moderate" then 2
  else if label = "severe" then 3
  else if label = "extreme" then 4
  else 1

/-- `gemma_result.get('concern_level') or gemma_result.get('standard_concern_level', dflt)`:
the first key wins when present and truthy (non-empty), otherwise the second
key with the given default. -/
def gemmaConcernOr (g : Assessment) (dflt : String) : String :=
  match g.concern_level with
  | some s => if s = "" then g.standard_concern_level.getD dflt else s
  | none => g.standard_concern_level.getD dflt

/-- `llava_score = concern_map.get(llava_result.get('concern_level', 'low'), 1)`. -/
def llava_score (l : Assessment) : Nat :=
  concern_map (l.concern_level.getD "low")

/-- `gemma_score = concern_map.get(gemma_concern, 1)` with the two-key fallback. -/
def gemma_score (g : Assessment) : Nat :=
  concern_map (gemmaConcernOr g "low")

/-- `avg_score = (llava_score + gemma_score) / 2` followed by the threshold
chain `>= 3.5 → critical`, `>= 2.5 → high`, `>= 1.5 → medium`, else `low`. -/
def ensembleLevel (sA sB : Nat) : String :=
  let avg : ℚ := ((sA : ℚ) + (sB : ℚ)) / 2
  if 3.5 ≤ avg then "critical"
  else if 2.5 ≤ avg then "high"
  else if 1.5 ≤ avg then "medium"
  else "low"

/-- `score_difference = abs(llava_score - gemma_score)` over Python ints. -/
def score_difference (sA sB : Nat) : Nat :=
  ((sA : ℤ) - (sB : ℤ)).natAbs

/-- `confidence = 1.0 - score_difference * 0.25`, then
`if llava_score >= 3 and gemma_score >= 3: confidence = min(1.0, confidence + 0.1)`. -/
def confidence (sA sB : Nat) : ℚ :=
  let c : ℚ := 1 - (score_difference sA sB : ℚ) * 0.25
  if 3 ≤ sA ∧ 3 ≤ sB then min 1 (c + 0.1) else c

/-- Python's `round(x, 2)`. Python rounds decimal halves to even; this model
rounds halves up, and the two agree on every value whose hundredths are exact,
which covers all values this code ever rounds. -/
def round2 (x : ℚ) : ℚ := ((round (x * 100) : ℤ) : ℚ) / 100

/-- `get_agreement_level` of `src/utils/ensemble.py`. -/
def get_agreement_level (d : ℚ) : String :=
  if d = 0 then "perfect"
  else if d ≤ 1 then "high"
  else if d ≤ 2 then "moderate"
  else "low"

/-- Inserting a list's elements into a Python set, tracked in insertion order:
already-present elements are skipped, new ones appended. -/
def setInsertAll (acc : List String) (xs : List String) : List String :=
  xs.foldl (fun a x => if x ∈ a then a else a ++ [x]) acc

/-- The contents of the `combined_indicators` set of `combine_analyses`, in
insertion order: llava's `concern_indicators` and `restriction_indicators`,
then gemma's `exploitation_indicators`, `control_indicators` and
`welfare_concerns` (a missing or empty list contributes nothing). -/
def pooledMembers (l g : Assessment) : List String :=
  let s := setInsertAll [] (l.concern_indicators.getD [])
  let s := setInsertAll s (l.restriction_indicators.getD [])
  let s := setInsertAll s (g.exploitation_indicators.getD [])
  let s := setInsertAll s (g.control_indicators.getD [])
  setInsertAll s (g.welfare_concerns.getD [])

/-- Python's string slice `s[:n]` (by code points). -/
def takeStr (s : String) (n : Nat) : String := String.mk (s.data.take n)

/-- Truthiness of `dict.get(key)` for a string value: present and non-empty. -/
def truthyStr (o : Option String) : Bool :=
  match o with
  | some s => s != ""
  | none => false

/-- The agreement statement opening the consensus description, with the
`'unknown'` defaults of `create_consensus_description`. -/
def agreementLine (l g : Assessment) : String :=
  let llava_concern := l.concern_level.getD "unknown"
  let gemma_concern := gemmaConcernOr g "unknown"
  if llava_concern = gemma_concern then
    "Both models agree on " ++ llava_concern ++ " concern level."
  else
    "Models show " ++ llava_concern ++ " (llava) and " ++ gemma_concern ++
      " (gemma) concern levels."

/-- One guarded `descriptions.append(f"{label}{result['scene_description'][:200]}")`. -/
def sceneLine (label : String) (o : Option String) (ds : List String) : List String :=
  if truthyStr o then ds ++ [label ++ takeStr (o.getD "") 200] else ds

/-- The guarded `descriptions.append(f"Personnel count: {...}")`. -/
def personnelLine (o : Option Nat) (ds : List String) : List String :=
  if 0 < o.getD 0 then ds ++ ["Personnel count: " ++ toString (o.getD 0)] else ds

/-- `create_consensus_description` of `src/utils/ensemble.py`. -/
def create_consensus_description (l g : Assessment) : String :=
  let ds := [agreementLine l g]
  let ds := sceneLine "Visual analysis: " l.scene_description ds
  let ds := sceneLine "Humanitarian perspective: " g.scene_description ds
  let ds := personnelLine l.personnel_count ds
  let ds := if l.supervision_present.getD false then
      ds ++ ["Supervision/control present"]
    else ds
  String.intercalate " " ds

/-- The record returned by `combine_analyses`. -/
structure EnsembleOut where
  ensemble_concern_level : String
  ensemble_confidence : ℚ
  llava_score : Nat
  gemma_score : Nat
  agreement_level : String
  combined_indicators : List String
  consensus_description : String
deriving Repr, DecidableEq

/-- `combine_analyses` of `src/utils/ensemble.py`. `list(combined_indicators)`
enumerates a Python set in an interpreter-determined (string-hash-dependent)
order; that enumeration is the `setOrder` parameter, applied to the set's
members in insertion order. -/
def combine_analyses (setOrder : List String → List String) (l g : Assessment) :
    EnsembleOut :=
  let ls := llava_score l
  let gs := gemma_score g
  { ensemble_concern_level := ensembleLevel ls gs
    ensemble_confidence := round2 (confidence ls gs)
    llava_score := ls
    gemma_score := gs
    agreement_level := get_agreement_level (score_difference ls gs : ℚ)
    combined_indicators := (setOrder (pooledMembers l g)).take 10
    consensus_description := create_consensus_description l g }

/-- The local `concern_scores` dictionary of `calculate_priority_score`,
with its `.get` default of 0. -/
def concern_scores (label : String) : Nat :=
  if label = "low" then 1
  else if label = "medium" then 2
  else if label = "high" then 3
  else if label = "critical" then 4
  else 0

/-- `calculate_priority_score` of `src/utils/ensemble.py` (its `gemma_result`
argument is unused by the source). -/
def calculate_priority_score (e : EnsembleOut) (l : Assessment) : ℚ :=
  let s : ℚ := 0
  let s := s + (concern_scores e.ensemble_concern_level : ℚ) * 2
  let s := s + e.ensemble_confidence * 2
  let s := s + min ((e.combined_indicators.length : ℚ) * 0.5) 3
  let s := s + (if 5 < l.personnel_count.getD 0 then 1 else 0)
  let s := s + (if 10 < l.personnel_count.getD 0 then 1 else 0)
  let s := s + (if l.supervision_present.getD false then 1 else 0)
  round2 s

/-- `should_flag_for_review` of `src/utils/ensemble.py`. -/
def should_flag_for_review (e : EnsembleOut) : Bool :=
  if (e.ensemble_concern_level = "high" ∨ e.ensemble_concern_level = "critical")
      ∧ (0.75 : ℚ) ≤ e.ensemble_confidence then true
  else if e.agreement_level = "low" ∧ (3 ≤ e.llava_score ∨ 3 ≤ e.gemma_score) then true
  else if 5 ≤ e.combined_indicators.length then true
  else false

/-- Boolean test that one character list starts with another (used to model
Python's substring operator). -/
def strPrefixOf : List Char → List Char → Bool
  | [], _ => true
  | _ :: _, [] => false
  | a :: as, b :: bs => a == b && strPrefixOf as bs

/-- Boolean substring search over character lists. -/
def substrOf (needle : List Char) : List Char → Bool
  | [] => strPrefixOf needle []
  | b :: bs => strPrefixOf needle (b :: bs) || substrOf needle bs

/-- Python's `needle in hay` on strings. -/
def strIn (needle hay : String) : Bool := substrOf needle.data hay.data

/-- Python's `s.lower()` (ASCII case mapping). -/
def lowerStr (s : String) : String := String.mk (s.data.map Char.toLower)

namespace EnsembleAnalyzer

/-- The `self.concern_scores` dictionary of `EnsembleAnalyzer.__init__` with
the `.get` default of 1 used in `combine_concern_levels`: only the standard
labels appear in this table. -/
def concern_scores (label : String) : Nat :=
  if label = "low" then 1
  else if label = "medium" then 2
  else if label = "high" then 3
  else if label = "critical" then 4
  else 1

/-- The body of `EnsembleAnalyzer.combine_concern_levels` once the two labels
have been scored: the same threshold chain as `combine_analyses`, the
confidence table on the score difference, and the `+0.1` boost applied when
the ensemble level is high or critical. -/
def combineScores (ls gs : Nat) : String × ℚ :=
  let avg : ℚ := ((ls : ℚ) + (gs : ℚ)) / 2
  let ensemble_level :=
    if 3.5 ≤ avg then "critical"
    else if 2.5 ≤ avg then "high"
    else if 1.5 ≤ avg then "medium"
    else "low"
  let diff := score_difference ls gs
  let c : ℚ :=
    if diff = 0 then 1
    else if diff = 1 then 0.75
    else if diff = 2 then 0.5
    else 0.25
  let c :=
    if ensemble_level = "high" ∨ ensemble_level = "critical" then min 1 (c + 0.1)
    else c
  (ensemble_level, c)

/-- `EnsembleAnalyzer.combine_concern_levels` of
`src/scripts/image/apply_ensemble_analysis.py`: scores both labels with
`self.concern_scores` (default 1) and returns `(ensemble_level, confidence)`. -/
def combine_concern_levels (llava_concern gemma_concern : String) : String × ℚ :=
  combineScores (concern_scores llava_concern) (concern_scores gemma_concern)

/-- The similarity check of `EnsembleAnalyzer.combine_indicators`:
`indicator.lower() in existing.lower() or existing.lower() in indicator.lower()`. -/
def similar (indicator existing : String) : Bool :=
  strIn (lowerStr indicator) (lowerStr existing) ||
    strIn (lowerStr existing) (lowerStr indicator)

/-- `EnsembleAnalyzer.combine_indicators`: all llava indicators are appended
unconditionally, then each gemma indicator is appended unless `similar` to one
already in the list; the result is truncated to 15. -/
def combine_indicators (llava_indicators gemma_indicators : List String) :
    List String :=
  let all := llava_indicators
  let all := gemma_indicators.foldl
    (fun acc indicator =>
      if acc.any (fun existing => similar indicator existing) then acc
      else acc ++ [indicator])
    all
  all.take 15

end EnsembleAnalyzer

/-- Python's `d[key]`: a `KeyError` when the key is absent. -/
def getKey {α : Type} (o : Option α) : Except String α :=
  match o with
  | some v => Except.ok v
  | none => Except.error "KeyError"

/-- Truthiness of `dict.get(key)` for a list value: present and non-empty. -/
def truthyList (o : Option (List String)) : Bool :=
  match o with
  | some (_ :: _) => true
  | _ => false

/-- One guarded `combined_indicators.update(result[key])` statement of
`combine_analyses`, with the bracket access under the truthiness guard made an
explicit error branch. -/
def updateExc (acc : List String) (o : Option (List String)) :
    Except String (List String) :=
  if truthyList o then do
    let v ← getKey o
    pure (setInsertAll acc v)
  else pure acc

/-- `sceneLine` with its guarded bracket access made an explicit error branch. -/
def sceneExc (label : String) (o : Option String) (ds : List String) :
    Except String (List String) :=
  if truthyStr o then do
    let s ← getKey o
    pure (ds ++ [label ++ takeStr s 200])
  else pure ds

/-- `personnelLine` with its guarded bracket access made an explicit error
branch. -/
def personnelExc (o : Option Nat) (ds : List String) :
    Except String (List String) :=
  if 0 < o.getD 0 then do
    let c ← getKey o
    pure (ds ++ ["Personnel count: " ++ toString c])
  else pure ds

/-- `create_consensus_description` with every guarded `dict[key]` access made
an explicit error branch. -/
def consensusExc (l g : Assessment) : Except String String := do
  let ds := [agreementLine l g]
  let ds ← sceneExc "Visual analysis: " l.scene_description ds
  let ds ← sceneExc "Humanitarian perspective: " g.scene_description ds
  let ds ← personnelExc l.personnel_count ds
  let ds := if l.supervision_present.getD false then
      ds ++ ["Supervision/control present"]
    else ds
  pure (String.intercalate " " ds)

/-- `combine_analyses` with every guarded `dict[key]` access made an explicit
error branch, to settle whether any failure is reachable. -/
def combine_analysesExc (setOrder : List String → List String)
    (l g : Assessment) : Except String EnsembleOut := do
  let ls := llava_score l
  let gs := gemma_score g
  let s ← updateExc [] l.concern_indicators
  let s ← updateExc s l.restriction_indicators
  let s ← updateExc s g.exploitation_indicators
  let s ← updateExc s g.control_indicators
  let s ← updateExc s g.welfare_concerns
  let desc ← consensusExc l g
  pure { ensemble_concern_level := ensembleLevel ls gs
         ensemble_confidence := round2 (confidence ls gs)
         llava_score := ls
         gemma_score := gs
         agreement_level := get_agreement_level (score_difference ls gs : ℚ)
         combined_indicators := (setOrder s).take 10
         consensus_description := desc }

/-! ### Basic facts about the embedded definitions -/

/-- Every label, known or not, scores between 1 and 4 in `concern_map`. -/
lemma concern_map_range (s : String) : 1 ≤ concern_map s ∧ concern_map s ≤ 4 := by
  unfold concern_map
  split_ifs <;> omega

lemma llava_score_range (l : Assessment) :
    1 ≤ llava_score l ∧ llava_score l ≤ 4 :=
  concern_map_range _

lemma gemma_score_range (g : Assessment) :
    1 ≤ gemma_score g ∧ gemma_score g ≤ 4 :=
  concern_map_range _

/-- Every label, known or not, scores between 1 and 4 in the script's table. -/
lemma concern_scores_range (s : String) :
    1 ≤ EnsembleAnalyzer.concern_scores s ∧ EnsembleAnalyzer.concern_scores s ≤ 4 := by
  unfold EnsembleAnalyzer.concern_scores
  split_ifs <;> omega

/-- `round(., 2)` is the identity on rationals whose product with 100 is an
integer. -/
lemma round2_eq_self {x : ℚ} (h : ∃ m : ℤ, x * 100 = m) : round2 x = x := by
  obtain ⟨m, hm⟩ := h
  unfold round2
  rw [hm, round_intCast, ← hm]
  field_simp

/-- Whatever the input scores in 1..4, the rounded confidence equals the
unrounded one and lies between 1/4 and 1. -/
lemma round2_confidence_cases (sA sB : Nat)
    (h1 : 1 ≤ sA) (h2 : sA ≤ 4) (h3 : 1 ≤ sB) (h4 : sB ≤ 4) :
    round2 (confidence sA sB) = confidence sA sB
    ∧ 1/4 ≤ confidence sA sB ∧ confidence sA sB ≤ 1 := by
  interval_cases sA <;> interval_cases sB <;>
    simp only [confidence, score_difference, round2] <;>
    norm_num [min_def, round_eq, Int.floor_eq_iff]

/-- The threshold chain of `combine_analyses` characterised by half-open
average bands, for scores in the reachable range 1..4. -/
lemma ensembleLevel_cases (sA sB : Nat)
    (h1 : 1 ≤ sA) (h2 : sA ≤ 4) (h3 : 1 ≤ sB) (h4 : sB ≤ 4) :
    (ensembleLevel sA sB = "critical" ↔ (7 : ℚ)/2 ≤ ((sA : ℚ) + (sB : ℚ))/2)
    ∧ (ensembleLevel sA sB = "high" ↔
        ((5 : ℚ)/2 ≤ ((sA : ℚ) + (sB : ℚ))/2 ∧ ((sA : ℚ) + (sB : ℚ))/2 < 7/2))
    ∧ (ensembleLevel sA sB = "medium" ↔
        ((3 : ℚ)/2 ≤ ((sA : ℚ) + (sB : ℚ))/2 ∧ ((sA : ℚ) + (sB : ℚ))/2 < 5/2))
    ∧ (ensembleLevel sA sB = "low" ↔ ((sA : ℚ) + (sB : ℚ))/2 < 3/2) := by
  interval_cases sA <;> interval_cases sB <;>
    simp only [ensembleLevel] <;> norm_num <;> decide

/-- The level chain is symmetric in the two scores. -/
lemma ensembleLevel_comm (a b : Nat) : ensembleLevel a b = ensembleLevel b a := by
  simp only [ensembleLevel]
  rw [show ((a : ℚ) + (b : ℚ))/2 = ((b : ℚ) + (a : ℚ))/2 from by ring]

/-- The score difference is symmetric. -/
lemma score_difference_comm (a b : Nat) :
    score_difference a b = score_difference b a := by
  unfold score_difference
  omega

/-- The confidence computation is symmetric in the two scores. -/
lemma confidence_comm (a b : Nat) : confidence a b = confidence b a := by
  by_cases ha : 3 ≤ a <;> by_cases hb : 3 ≤ b <;>
    simp only [confidence, score_difference_comm a b, ha, hb,
      and_true, and_false, true_and, false_and, if_true, if_false]

lemma combine_level_eq (ord : List String → List String) (l g : Assessment) :
    (combine_analyses ord l g).ensemble_concern_level =
      ensembleLevel (llava_score l) (gemma_score g) := rfl

lemma combine_conf_eq (ord : List String → List String) (l g : Assessment) :
    (combine_analyses ord l g).ensemble_confidence =
      round2 (confidence (llava_score l) (gemma_score g)) := rfl

lemma combine_inds_eq (ord : List String → List String) (l g : Assessment) :
    (combine_analyses ord l g).combined_indicators =
      (ord (pooledMembers l g)).take 10 := rfl

/-! ### Claims -/

/-- C2: in both code paths the combined concern label is determined from
`avg = (sA + sB) / 2` by the half-open thresholds `avg ≥ 3.5 → critical`,
`avg ≥ 2.5 → high`, `avg ≥ 1.5 → medium`, else `low`; in particular scores
(3,4) yield critical, (2,3) high, (1,2) medium, and (1,1) low. -/
theorem C2_level_thresholds :
    (∀ (ord : List String → List String) (l g : Assessment),
      ((combine_analyses ord l g).ensemble_concern_level = "critical"
          ↔ (7 : ℚ)/2 ≤ ((llava_score l : ℚ) + (gemma_score g : ℚ))/2)
      ∧ ((combine_analyses ord l g).ensemble_concern_level = "high"
          ↔ ((5 : ℚ)/2 ≤ ((llava_score l : ℚ) + (gemma_score g : ℚ))/2
              ∧ ((llava_score l : ℚ) + (gemma_score g : ℚ))/2 < 7/2))
      ∧ ((combine_analyses ord l g).ensemble_concern_level = "medium"
          ↔ ((3 : ℚ)/2 ≤ ((llava_score l : ℚ) + (gemma_score g : ℚ))/2
              ∧ ((llava_score l : ℚ) + (gemma_score g : ℚ))/2 < 5/2))
      ∧ ((combine_analyses ord l g).ensemble_concern_level = "low"
          ↔ ((llava_score l : ℚ) + (gemma_score g : ℚ))/2 < 3/2))
    ∧ (∀ a b : String,
        (EnsembleAnalyzer.combine_concern_levels a b).1 =
          ensembleLevel (EnsembleAnalyzer.concern_scores a)
            (EnsembleAnalyzer.concern_scores b))
    ∧ ensembleLevel 3 4 = "critical"
    ∧ ensembleLevel 2 3 = "high"
    ∧ ensembleLevel 1 2 = "medium"
    ∧ ensembleLevel 1 1 = "low"
    ∧ (combine_analyses id { concern_level := some "high" }
        { concern_level := some "critical" }).ensemble_concern_level = "critical"
    ∧ (combine_analyses id { concern_level := some "medium" }
        { concern_level := some "severe" }).ensemble_concern_level = "high"
    ∧ (combine_analyses id { concern_level := some "low" }
        { concern_level := some "moderate" }).ensemble_concern_level = "medium"
    ∧ (combine_analyses id { concern_level := some "low" }
        { concern_level := some "minimal" }).ensemble_concern_level = "low" := by
  refine ⟨?_, ?_, ?_, ?_, ?_, ?_, ?_, ?_, ?_, ?_⟩
  · intro ord l g
    rw [combine_level_eq]
    exact ensembleLevel_cases (llava_score l) (gemma_score g)
      (llava_score_range l).1 (llava_score_range l).2
      (gemma_score_range g).1 (gemma_score_range g).2
  · intro a b
    rfl
  · norm_num [ensembleLevel]
  · norm_num [ensembleLevel]
  · norm_num [ensembleLevel]
  · norm_num [ensembleLevel]
  · show ensembleLevel 3 4 = "critical"
    norm_num [ensembleLevel]
  · show ensembleLevel 2 3 = "high"
    norm_num [ensembleLevel]
  · show ensembleLevel 1 2 = "medium"
    norm_num [ensembleLevel]
  · show ensembleLevel 1 1 = "low"
    norm_num [ensembleLevel]

/-- C6: `should_flag_for_review` returns true iff the level is high or
critical with confidence at least 0.75, or the agreement level is low with at
least one model score at least 3, or there are at least 5 combined
indicators. -/
theorem C6_flag_iff :
    ∀ e : EnsembleOut,
      should_flag_for_review e = true ↔
        (((e.ensemble_concern_level = "high" ∨ e.ensemble_concern_level = "critical")
            ∧ (0.75 : ℚ) ≤ e.ensemble_confidence)
         ∨ (e.agreement_level = "low" ∧ (3 ≤ e.llava_score ∨ 3 ≤ e.gemma_score))
         ∨ 5 ≤ e.combined_indicators.length) := by
  intro e
  unfold should_flag_for_review
  split_ifs with h1 h2 h3 <;> simp_all

/-- C10: the ensemble confidence returned by `combine_analyses` always lies in
the closed interval [0.25, 1]. -/
theorem C10_confidence_bounds :
    ∀ (ord : List String → List String) (l g : Assessment),
      (1 : ℚ)/4 ≤ (combine_analyses ord l g).ensemble_confidence
      ∧ (combine_analyses ord l g).ensemble_confidence ≤ 1 := by
  intro ord l g
  have hA := llava_score_range l
  have hB := gemma_score_range g
  have h := round2_confidence_cases (llava_score l) (gemma_score g)
    hA.1 hA.2 hB.1 hB.2
  rw [combine_conf_eq, h.1]
  exact ⟨h.2.1, h.2.2⟩

/-- Written from the spec's words (§4.2 steps 5-6), for comparison with the
code: base confidence `1 - 0.25 * |sA - sB|`, with the `+0.1` boost capped at
1 exactly when both scores are at least 3. -/
def specConfidence (sA sB : Nat) : ℚ :=
  let base : ℚ := 1 - 0.25 * ((((sA : ℤ) - (sB : ℤ)).natAbs : ℚ))
  if 3 ≤ sA ∧ 3 ≤ sB then min 1 (base + 0.1) else base

/-- Written from the spec's words with the boost condition the script actually
implements: the boost applies when the combined level is high or critical,
i.e. when the average score is at least 2.5. -/
def specConfidenceHighCrit (sA sB : Nat) : ℚ :=
  let base : ℚ := 1 - 0.25 * ((((sA : ℤ) - (sB : ℤ)).natAbs : ℚ))
  if (5 : ℚ)/2 ≤ ((sA : ℚ) + (sB : ℚ))/2 then min 1 (base + 0.1) else base

/-- In `combine_analyses` the rounded confidence coincides with the spec's
formula, for scores in the reachable range. -/
lemma round2_conf_spec (sA sB : Nat)
    (h1 : 1 ≤ sA) (h2 : sA ≤ 4) (h3 : 1 ≤ sB) (h4 : sB ≤ 4) :
    round2 (confidence sA sB) = specConfidence sA sB := by
  interval_cases sA <;> interval_cases sB <;>
    simp only [confidence, specConfidence, score_difference, round2] <;>
    norm_num [min_def, round_eq, Int.floor_eq_iff]

/-- In the script path the confidence table plus high/critical boost coincides
with the formula boosted at average at least 2.5, for scores in range. -/
lemma combineScores_conf_spec (ls gs : Nat)
    (h1 : 1 ≤ ls) (h2 : ls ≤ 4) (h3 : 1 ≤ gs) (h4 : gs ≤ 4) :
    (EnsembleAnalyzer.combineScores ls gs).2 = specConfidenceHighCrit ls gs := by
  interval_cases ls <;> interval_cases gs <;>
    simp only [EnsembleAnalyzer.combineScores, specConfidenceHighCrit,
      score_difference] <;>
    norm_num [min_def] <;> decide

/-- C1 counterexample: on scores (4,1) — labels critical and low — the script's
`combine_concern_levels` returns confidence 0.35, not the unboosted 0.25 the
claim's rule (boost only when both scores are at least 3) prescribes. -/
theorem C1_confidence_cex :
    (EnsembleAnalyzer.combine_concern_levels "critical" "low").2 = 0.35
    ∧ (1 : ℚ) - 0.25 * 3 = 0.25
    ∧ ¬ ((0.35 : ℚ) = 0.25) := by
  refine ⟨?_, by norm_num, by norm_num⟩
  show (EnsembleAnalyzer.combineScores 4 1).2 = 0.35
  simp only [EnsembleAnalyzer.combineScores, score_difference]
  norm_num [min_def]

/-- C1 amended: the base confidence is `1 - 0.25 * |sA - sB|` in both paths;
in `combine_analyses` the `+0.1` boost (capped at 1) applies exactly when both
scores are at least 3, while in `EnsembleAnalyzer.combine_concern_levels` it
applies exactly when the combined level is high or critical (average at least
2.5), so there scores (4,1) are boosted to 0.35. -/
theorem C1_confidence_amended :
    (∀ (ord : List String → List String) (l g : Assessment),
      (combine_analyses ord l g).ensemble_confidence =
        specConfidence (llava_score l) (gemma_score g))
    ∧ (∀ a b : String,
        (EnsembleAnalyzer.combine_concern_levels a b).2 =
          specConfidenceHighCrit (EnsembleAnalyzer.concern_scores a)
            (EnsembleAnalyzer.concern_scores b)) := by
  constructor
  · intro ord l g
    rw [combine_conf_eq]
    exact round2_conf_spec (llava_score l) (gemma_score g)
      (llava_score_range l).1 (llava_score_range l).2
      (gemma_score_range g).1 (gemma_score_range g).2
  · intro a b
    exact combineScores_conf_spec (EnsembleAnalyzer.concern_scores a)
      (EnsembleAnalyzer.concern_scores b)
      (concern_scores_range a).1 (concern_scores_range a).2
      (concern_scores_range b).1 (concern_scores_range b).2

/-- An assessment carrying only a llava-style label. -/
def c4A : Assessment := { concern_level := some "low" }

/-- An assessment carrying its label only under `standard_concern_level`. -/
def c4B : Assessment := { standard_concern_level := some "critical" }

/-- C4 counterexample: swapping the arguments of `combine_analyses` changes
both the concern level and the confidence when one record's label is only
under `standard_concern_level`, because the llava slot never reads that key. -/
theorem C4_commutativity_cex :
    (combine_analyses id c4A c4B).ensemble_concern_level = "high"
    ∧ (combine_analyses id c4B c4A).ensemble_concern_level = "low"
    ∧ (combine_analyses id c4A c4B).ensemble_confidence = 1/4
    ∧ (combine_analyses id c4B c4A).ensemble_confidence = 1
    ∧ ¬ ((combine_analyses id c4A c4B).ensemble_concern_level
          = (combine_analyses id c4B c4A).ensemble_concern_level)
    ∧ ¬ ((combine_analyses id c4A c4B).ensemble_confidence
          = (combine_analyses id c4B c4A).ensemble_confidence) := by
  have h1 : (combine_analyses id c4A c4B).ensemble_concern_level = "high" := by
    show ensembleLevel 1 4 = "high"
    norm_num [ensembleLevel]
  have h2 : (combine_analyses id c4B c4A).ensemble_concern_level = "low" := by
    show ensembleLevel 1 1 = "low"
    norm_num [ensembleLevel]
  have h3 : (combine_analyses id c4A c4B).ensemble_confidence = 1/4 := by
    show round2 (confidence 1 4) = 1/4
    simp only [confidence, score_difference, round2]
    norm_num [min_def, round_eq, Int.floor_eq_iff]
  have h4 : (combine_analyses id c4B c4A).ensemble_confidence = 1 := by
    show round2 (confidence 1 1) = 1
    simp only [confidence, score_difference, round2]
    norm_num [min_def, round_eq, Int.floor_eq_iff]
  refine ⟨h1, h2, h3, h4, ?_, ?_⟩
  · rw [h1, h2]
    decide
  · rw [h3, h4]
    norm_num

/-- C4 amended: `combine(A, B)` and `combine(B, A)` agree on concern level and
confidence whenever each record normalizes to the same score in either
argument slot — in particular whenever both records carry their labels under
`concern_level`; a record whose label sits only under `standard_concern_level`
breaks this, as it scores there in the gemma slot but as low in the llava
slot. -/
theorem C4_commutativity_amended (ord : List String → List String)
    (l g : Assessment)
    (hl : llava_score l = gemma_score l) (hg : llava_score g = gemma_score g) :
    (combine_analyses ord l g).ensemble_concern_level
      = (combine_analyses ord g l).ensemble_concern_level
    ∧ (combine_analyses ord l g).ensemble_confidence
      = (combine_analyses ord g l).ensemble_confidence := by
  rw [combine_level_eq, combine_level_eq, combine_conf_eq, combine_conf_eq,
    hl, hg]
  exact ⟨ensembleLevel_comm _ _, by rw [confidence_comm]⟩

/-- A llava-labelled record used to witness the amended commutativity. -/
def c4WA : Assessment := { concern_level := some "high" }

/-- A second llava-labelled record used to witness the amended commutativity. -/
def c4WB : Assessment := { concern_level := some "low" }

/-- Witness for the amended C4 at two records labelled under `concern_level`. -/
theorem C4_commutativity_amended_witness :
    llava_score c4WA = gemma_score c4WA
    ∧ llava_score c4WB = gemma_score c4WB
    ∧ ((combine_analyses id c4WA c4WB).ensemble_concern_level
        = (combine_analyses id c4WB c4WA).ensemble_concern_level
      ∧ (combine_analyses id c4WA c4WB).ensemble_confidence
        = (combine_analyses id c4WB c4WA).ensemble_confidence) :=
  ⟨by decide, by decide,
    C4_commutativity_amended id c4WA c4WB (by decide) (by decide)⟩

/-- C5 counterexample: the script's table lacks the alternate vocabulary, so
`severe` scores 1 there (not 3 as the claim states for both paths), and
labels (critical, extreme) combine to high instead of critical. -/
theorem C5_vocabulary_cex :
    EnsembleAnalyzer.concern_scores "severe" = 1
    ∧ ¬ (EnsembleAnalyzer.concern_scores "severe" = 3)
    ∧ (EnsembleAnalyzer.combine_concern_levels "critical" "extreme").1 = "high"
    ∧ concern_map "severe" = 3 := by
  refine ⟨by decide, by decide, ?_, by decide⟩
  show (EnsembleAnalyzer.combineScores 4 1).1 = "high"
  simp only [EnsembleAnalyzer.combineScores]
  norm_num

/-- C5 amended: `combine_analyses` maps both vocabularies by the fixed table
with unknown or missing labels defaulting to 1, while the script's
`concern_scores` table only contains the standard set, so the alternate labels
(minimal, moderate, severe, extreme) fall through to the default 1 there. -/
theorem C5_vocabulary_amended :
    (concern_map "low" = 1 ∧ concern_map "minimal" = 1
      ∧ concern_map "medium" = 2 ∧ concern_map "moderate" = 2
      ∧ concern_map "high" = 3 ∧ concern_map "severe" = 3
      ∧ concern_map "critical" = 4 ∧ concern_map "extreme" = 4)
    ∧ (∀ s : String,
        s ∉ (["low", "medium", "high", "critical",
              "minimal", "moderate", "severe", "extreme"] : List String) →
        concern_map s = 1)
    ∧ (EnsembleAnalyzer.concern_scores "low" = 1
      ∧ EnsembleAnalyzer.concern_scores "medium" = 2
      ∧ EnsembleAnalyzer.concern_scores "high" = 3
      ∧ EnsembleAnalyzer.concern_scores "critical" = 4)
    ∧ (∀ s : String,
        s ∉ (["low", "medium", "high", "critical"] : List String) →
        EnsembleAnalyzer.concern_scores s = 1)
    ∧ (∀ l : Assessment, l.concern_level = none → llava_score l = 1)
    ∧ (∀ g : Assessment, g.concern_level = none →
        g.standard_concern_level = none → gemma_score g = 1) := by
  refine ⟨by decide, ?_, by decide, ?_, ?_, ?_⟩
  · intro s hs
    simp only [List.mem_cons, List.not_mem_nil, or_false, not_or] at hs
    obtain ⟨e1, e2, e3, e4, e5, e6, e7, e8⟩ := hs
    simp [concern_map, e1, e2, e3, e4, e5, e6, e7, e8]
  · intro s hs
    simp only [List.mem_cons, List.not_mem_nil, or_false, not_or] at hs
    obtain ⟨e1, e2, e3, e4⟩ := hs
    simp [EnsembleAnalyzer.concern_scores, e1, e2, e3, e4]
  · intro l h
    unfold llava_score
    rw [h]
    decide
  · intro g h1 h2
    unfold gemma_score gemmaConcernOr
    rw [h1, h2]
    decide

/-- Witness for the amended C5 at an unknown label and at empty records. -/
theorem C5_vocabulary_amended_witness :
    (("fumigated" : String) ∉ (["low", "medium", "high", "critical",
        "minimal", "moderate", "severe", "extreme"] : List String))
    ∧ concern_map "fumigated" = 1
    ∧ EnsembleAnalyzer.concern_scores "fumigated" = 1
    ∧ llava_score {} = 1
    ∧ gemma_score {} = 1 :=
  ⟨by decide,
    C5_vocabulary_amended.2.1 "fumigated" (by decide),
    C5_vocabulary_amended.2.2.2.1 "fumigated" (by decide),
    C5_vocabulary_amended.2.2.2.2.1 {} rfl,
    C5_vocabulary_amended.2.2.2.2.2 {} rfl rfl⟩

namespace EnsembleAnalyzer

/-- The gemma loop of `combine_indicators` as structural recursion: an
incoming indicator is appended unless `similar` to an already-accepted one. -/
def acceptLoop (acc : List String) : List String → List String
  | [] => acc
  | x :: rest =>
    if acc.any (fun existing => similar x existing) then acceptLoop acc rest
    else acceptLoop (acc ++ [x]) rest

/-- The fold in `combine_indicators` computes exactly `acceptLoop`. -/
lemma foldl_acceptLoop (ys : List String) :
    ∀ acc : List String,
      ys.foldl
        (fun acc indicator =>
          if acc.any (fun existing => similar indicator existing) then acc
          else acc ++ [indicator]) acc
      = acceptLoop acc ys := by
  induction ys with
  | nil => intro acc; rfl
  | cons x rest ih =>
    intro acc
    by_cases h : (acc.any fun existing => similar x existing) = true
    · simp only [List.foldl_cons, acceptLoop, if_pos h, ih]
    · simp only [List.foldl_cons, acceptLoop, if_neg h, ih]

/-- `combine_indicators` is the accept loop started on the llava list,
truncated to 15. -/
lemma combine_indicators_eq (xs ys : List String) :
    combine_indicators xs ys = (acceptLoop xs ys).take 15 := by
  simp only [combine_indicators]
  rw [foldl_acceptLoop]

end EnsembleAnalyzer

/-- llava record of the dedup counterexample. -/
def c3A : Assessment := { concern_indicators := some ["no helmets"] }

/-- gemma record of the dedup counterexample. -/
def c3B : Assessment := { exploitation_indicators := some ["no safety helmets worn"] }

/-- C3 counterexample: neither of "no helmets" and "no safety helmets worn"
contains the other, so the script's substring check keeps both — the claimed
drop of the second never happens — and `combine_analyses`, which pools into a
set with no substring logic at all, keeps both as well. -/
theorem C3_dedup_cex :
    EnsembleAnalyzer.combine_indicators ["no helmets"] ["no safety helmets worn"]
      = ["no helmets", "no safety helmets worn"]
    ∧ ¬ (EnsembleAnalyzer.combine_indicators ["no helmets"]
          ["no safety helmets worn"] = ["no helmets"])
    ∧ EnsembleAnalyzer.similar "no safety helmets worn" "no helmets" = false
    ∧ (combine_analyses id c3A c3B).combined_indicators
        = ["no helmets", "no safety helmets worn"] := by
  refine ⟨by decide, by decide, by decide, by decide⟩

/-- All elements inserted into the set model stay distinct. -/
lemma setInsertAll_nodup (xs : List String) :
    ∀ acc : List String, acc.Nodup → (setInsertAll acc xs).Nodup := by
  induction xs with
  | nil => intro acc h; exact h
  | cons x rest ih =>
    intro acc h
    simp only [setInsertAll, List.foldl_cons]
    by_cases hx : x ∈ acc
    · simpa [setInsertAll, hx] using ih acc h
    · have : (acc ++ [x]).Nodup := by
        simp [List.nodup_append, h, hx]
      simpa [setInsertAll, hx] using ih (acc ++ [x]) this

/-- C3 amended: in `EnsembleAnalyzer.combine_indicators` the llava indicators
are all kept in order and each gemma indicator is dropped exactly when,
case-insensitively, it contains or is contained in an already-accepted one,
with the result truncated to 15; `combine_analyses` instead pools all
categories into a set (exact-equality deduplication only, no substring logic)
truncated to 10. Unrelated indicators survive, and a true superstring is
dropped. -/
theorem C3_dedup_amended :
    (∀ xs ys : List String,
      EnsembleAnalyzer.combine_indicators xs ys
        = (EnsembleAnalyzer.acceptLoop xs ys).take 15)
    ∧ (∀ (acc : List String) (x : String) (rest : List String),
        EnsembleAnalyzer.acceptLoop acc (x :: rest)
          = if acc.any (fun existing => EnsembleAnalyzer.similar x existing)
            then EnsembleAnalyzer.acceptLoop acc rest
            else EnsembleAnalyzer.acceptLoop (acc ++ [x]) rest)
    ∧ EnsembleAnalyzer.combine_indicators ["no helmets"] ["no helmets on site"]
        = ["no helmets"]
    ∧ EnsembleAnalyzer.combine_indicators ["fenced area"] ["guards"]
        = ["fenced area", "guards"]
    ∧ (∀ xs ys : List String,
        (EnsembleAnalyzer.combine_indicators xs ys).length ≤ 15)
    ∧ (∀ (ord : List String → List String) (l g : Assessment),
        ((combine_analyses ord l g).combined_indicators).length ≤ 10)
    ∧ (∀ l g : Assessment, (pooledMembers l g).Nodup)
    ∧ pooledMembers c3A c3B = ["no helmets", "no safety helmets worn"] := by
  refine ⟨EnsembleAnalyzer.combine_indicators_eq, ?_, by decide, by decide,
    ?_, ?_, ?_, by decide⟩
  · intro acc x rest
    rfl
  · intro xs ys
    rw [EnsembleAnalyzer.combine_indicators_eq]
    exact List.length_take_le 15 (EnsembleAnalyzer.acceptLoop xs ys)
  · intro ord l g
    rw [combine_inds_eq]
    exact List.length_take_le 10 (ord (pooledMembers l g))
  · intro l g
    unfold pooledMembers
    exact setInsertAll_nodup _ _ (setInsertAll_nodup _ _ (setInsertAll_nodup _ _
      (setInsertAll_nodup _ _ (setInsertAll_nodup _ _ List.nodup_nil))))

/-- Record with two indicators used to expose the set-enumeration ordering. -/
def c8A : Assessment := { concern_indicators := some ["a", "b"] }

/-- An empty assessment record. -/
def c8B : Assessment := {}

/-- C8: the list `combine_analyses` emits is the Python set's iteration order,
so two enumeration orders of the same two-element set give different
`combined_indicators` lists (while level, confidence and description are
unaffected): the output is not a function of the inputs alone but also of the
interpreter's hash-dependent set order. -/
theorem C8_set_order_dependence :
    (combine_analyses id c8A c8B).combined_indicators = ["a", "b"]
    ∧ (combine_analyses List.reverse c8A c8B).combined_indicators = ["b", "a"]
    ∧ ¬ ((combine_analyses id c8A c8B).combined_indicators
          = (combine_analyses List.reverse c8A c8B).combined_indicators)
    ∧ (combine_analyses id c8A c8B).ensemble_concern_level
        = (combine_analyses List.reverse c8A c8B).ensemble_concern_level
    ∧ (combine_analyses id c8A c8B).ensemble_confidence
        = (combine_analyses List.reverse c8A c8B).ensemble_confidence
    ∧ (combine_analyses id c8A c8B).consensus_description
        = (combine_analyses List.reverse c8A c8B).consensus_description :=
  ⟨by decide, by decide, by decide, rfl, rfl, rfl⟩

lemma ok_bind {α β : Type} (a : α) (f : α → Except String β) :
    (Except.ok a >>= f : Except String β) = f a := rfl

lemma pure_ok {α : Type} (a : α) : (pure a : Except String α) = Except.ok a := rfl

lemma updateExc_ok (acc : List String) (o : Option (List String)) :
    updateExc acc o = Except.ok (setInsertAll acc (o.getD [])) := by
  cases o with
  | none => rfl
  | some v =>
    cases v with
    | nil => rfl
    | cons x xs => rfl

lemma sceneExc_ok (label : String) (o : Option String) (ds : List String) :
    sceneExc label o ds = Except.ok (sceneLine label o ds) := by
  cases o with
  | none => rfl
  | some s =>
    cases hb : s != "" <;>
      simp [sceneExc, sceneLine, truthyStr, hb, getKey, ok_bind, pure_ok]

lemma personnelExc_ok (o : Option Nat) (ds : List String) :
    personnelExc o ds = Except.ok (personnelLine o ds) := by
  cases o with
  | none => rfl
  | some c =>
    by_cases hc : 0 < c <;>
      simp [personnelExc, personnelLine, hc, getKey, ok_bind, pure_ok]

lemma consensusExc_ok (l g : Assessment) :
    consensusExc l g = Except.ok (create_consensus_description l g) := by
  simp only [consensusExc, create_consensus_description, sceneExc_ok,
    personnelExc_ok, ok_bind, pure_ok]

/-- C9: `combine_analyses` is total — with every guarded dictionary access
modelled as an explicit error branch, every input record combination yields
`ok` of the plain result, so no error branch is reachable. -/
theorem C9_totality :
    ∀ (ord : List String → List String) (l g : Assessment),
      combine_analysesExc ord l g = Except.ok (combine_analyses ord l g) := by
  intro ord l g
  simp only [combine_analysesExc, updateExc_ok, consensusExc_ok, ok_bind]
  rfl

/-- C7: the priority score is the sum of twice the canonical score of the
ensemble level (1..4 on canonical labels), twice the ensemble confidence,
the capped indicator bonus `min(0.5 * count, 3)`, cumulative +1 bonuses for
personnel counts above 5 and above 10, and +1 for supervision; missing
optional fields contribute 0 and no branch can fail. The confidence is
assumed expressible in hundredths, as every confidence the combiner emits
is. -/
theorem C7_priority_formula :
    ∀ (e : EnsembleOut) (l : Assessment) (k : ℤ),
      e.ensemble_confidence = (k : ℚ) / 100 →
      e.ensemble_concern_level ∈ (["low", "medium", "high", "critical"] : List String) →
      (calculate_priority_score e l
          = (concern_scores e.ensemble_concern_level : ℚ) * 2
            + e.ensemble_confidence * 2
            + min ((e.combined_indicators.length : ℚ) * 0.5) 3
            + (if 5 < l.personnel_count.getD 0 then 1 else 0)
            + (if 10 < l.personnel_count.getD 0 then 1 else 0)
            + (if l.supervision_present.getD false then 1 else 0))
        ∧ 1 ≤ concern_scores e.ensemble_concern_level
        ∧ concern_scores e.ensemble_concern_level ≤ 4 := by
  intro e l k hconf hmem
  have hsplit : calculate_priority_score e l
      = round2 (0 + (concern_scores e.ensemble_concern_level : ℚ) * 2
          + e.ensemble_confidence * 2
          + min ((e.combined_indicators.length : ℚ) * 0.5) 3
          + (if 5 < l.personnel_count.getD 0 then 1 else 0)
          + (if 10 < l.personnel_count.getD 0 then 1 else 0)
          + (if l.supervision_present.getD false then 1 else 0)) := rfl
  obtain ⟨m3, hm3⟩ : ∃ m3 : ℤ,
      min ((e.combined_indicators.length : ℚ) * 0.5) 3 * 100 = m3 := by
    rcases le_total ((e.combined_indicators.length : ℚ) * 0.5) 3 with h | h
    · exact ⟨50 * e.combined_indicators.length, by rw [min_eq_left h]; push_cast; ring⟩
    · exact ⟨300, by rw [min_eq_right h]; norm_num⟩
  have h100 : ∃ m : ℤ,
      (0 + (concern_scores e.ensemble_concern_level : ℚ) * 2
        + e.ensemble_confidence * 2
        + min ((e.combined_indicators.length : ℚ) * 0.5) 3
        + (if 5 < l.personnel_count.getD 0 then 1 else 0)
        + (if 10 < l.personnel_count.getD 0 then 1 else 0)
        + (if l.supervision_present.getD false then 1 else 0)) * 100 = m := by
    refine ⟨0 + 200 * (concern_scores e.ensemble_concern_level : ℤ) + 2 * k + m3
      + (if 5 < l.personnel_count.getD 0 then 100 else 0)
      + (if 10 < l.personnel_count.getD 0 then 100 else 0)
      + (if l.supervision_present.getD false then 100 else 0), ?_⟩
    rw [hconf]
    split_ifs <;> push_cast <;> linear_combination hm3
  refine ⟨?_, ?_⟩
  · rw [hsplit, round2_eq_self h100, zero_add]
  · simp only [List.mem_cons, List.not_mem_nil, or_false] at hmem
    rcases hmem with h | h | h | h <;> rw [h] <;> exact ⟨by decide, by decide⟩

/-- A concrete combiner output used to witness the priority formula. -/
def c7E : EnsembleOut :=
  { ensemble_concern_level := "critical"
    ensemble_confidence := 0.9
    llava_score := 4
    gemma_score := 4
    agreement_level := "perfect"
    combined_indicators := ["a", "b", "c"]
    consensus_description := "" }

/-- A concrete llava record used to witness the priority formula. -/
def c7L : Assessment := { personnel_count := some 12, supervision_present := some true }

/-- Witness for the priority formula at a concrete result and assessment. -/
theorem C7_priority_formula_witness :
    c7E.ensemble_confidence = ((90 : ℤ) : ℚ) / 100
    ∧ c7E.ensemble_concern_level ∈ (["low", "medium", "high", "critical"] : List String)
    ∧ ((calculate_priority_score c7E c7L
          = (concern_scores c7E.ensemble_concern_level : ℚ) * 2
            + c7E.ensemble_confidence * 2
            + min ((c7E.combined_indicators.length : ℚ) * 0.5) 3
            + (if 5 < c7L.personnel_count.getD 0 then 1 else 0)
            + (if 10 < c7L.personnel_count.getD 0 then 1 else 0)
            + (if c7L.supervision_present.getD false then 1 else 0))
        ∧ 1 ≤ concern_scores c7E.ensemble_concern_level
        ∧ concern_scores c7E.ensemble_concern_level ≤ 4) :=
  ⟨by norm_num [c7E], by decide,
    C7_priority_formula c7E c7L 90 (by norm_num [c7E]) (by decide)⟩

end DPRK
